import Mathlib

/-!
Shallow embedding of the baritech backend's visibility / access-control core:
the routers `app/api/v1/routers/walk_reports.py`, `app/api/v1/routers/health_records.py`,
`app/api/v1/routers/certificates.py` and the service `app/services/certificate_service.py`.

Database tables are embedded as Lean lists; SQLAlchemy `query(...).filter(...).first()`
becomes `List.find?`, `.all()` becomes `List.filter`, `.count()` becomes `List.length`,
and `offset/limit` become `List.drop`/`List.take`.  `ORDER BY` is modelled as a
predicate on output lists (a permutation of the filtered rows that is pairwise
non-increasing in the sort key), because the store may break ties arbitrarily.
Dates and timestamps are embedded as `Nat`; ids are `String` as in the source.
-/

namespace Baritech

/-- Role enum referenced by the routers (`UserRole.USER / ADMIN / SUPER_ADMIN`). -/
inductive UserRole where
  | USER
  | ADMIN
  | SUPER_ADMIN
deriving DecidableEq

/-- `ReportStatus` enum from `app/models/walk_report.py`. -/
inductive ReportStatus where
  | DRAFT
  | PUBLIC
  | PRIVATE
deriving DecidableEq

/-- Participation status enum; the routers reference only `APPROVED`. -/
inductive ParticipantStatus where
  | PENDING
  | APPROVED
  | DECLINED
deriving DecidableEq

/-- `CertificateType` enum from `app/models/certificate.py`. -/
inductive CertificateType where
  | RABIES
  | REGISTRATION
  | INSURANCE
  | TRAINING
  | OTHER
deriving DecidableEq

/-- Authenticated principal: id and role.  The ORM relationship `user.owner`
is resolved against the store by `User.ownerOf` below. -/
structure User where
  id : String
  role : UserRole
deriving DecidableEq

/-- Owner row: 1:1 link from a user to an owner entity. -/
structure Owner where
  id : String
  user_id : String
deriving DecidableEq

/-- Dog row: the unit of ownership scope. -/
structure Dog where
  id : String
  owner_id : String
deriving DecidableEq

/-- Walk event row; only the fields the routers read. -/
structure WalkEvent where
  id : String
  created_by_user_id : String
deriving DecidableEq

/-- Walk participant row; only the fields the routers read. -/
structure WalkParticipant where
  event_id : String
  owner_id : String
  status : ParticipantStatus
deriving DecidableEq

/-- Walk report row (`app/models/walk_report.py`). -/
structure WalkReport where
  id : String
  walk_event_id : String
  author_user_id : String
  title : String
  content : Option String
  photos_json : Option String
  weather : Option String
  status : ReportStatus
  created_at : Nat
  updated_at : Nat
deriving DecidableEq

/-- Health record row; `weight`/`temperature` (floating point) and the free-text
payload columns are omitted: no router reads them for a decision. -/
structure HealthRecord where
  id : String
  dog_id : String
  record_date : Nat
  author_user_id : String
  created_at : Nat
deriving DecidableEq

/-- Certificate row (`app/models/certificate.py`). -/
structure Certificate where
  id : String
  dog_id : String
  cert_type : CertificateType
  cert_number : Option String
  issuer : String
  issued_on : Nat
  expires_on : Option Nat
  file_url : Option String
  notes : Option String
  created_at : Nat
deriving DecidableEq

/-- The relational store visible to the routers. -/
structure DB where
  owners : List Owner
  dogs : List Dog
  walk_events : List WalkEvent
  walk_participants : List WalkParticipant
  walk_reports : List WalkReport
  health_records : List HealthRecord
  certificates : List Certificate
deriving DecidableEq

/-- `db.query(WalkEvent).filter(WalkEvent.id == event_id).first()` -/
def DB.findWalkEvent (db : DB) (event_id : String) : Option WalkEvent :=
  db.walk_events.find? (fun e => e.id == event_id)

/-- `db.query(WalkReport).filter(WalkReport.id == report_id).first()` -/
def DB.findWalkReport (db : DB) (report_id : String) : Option WalkReport :=
  db.walk_reports.find? (fun r => r.id == report_id)

/-- The ORM relationship `user.owner`: the Owner row whose `user_id` is this user. -/
def User.ownerOf (db : DB) (user : User) : Option Owner :=
  db.owners.find? (fun o => o.user_id == user.id)

/-- `user.role in [UserRole.ADMIN, UserRole.SUPER_ADMIN]` -/
def isElevated (user : User) : Bool :=
  user.role == UserRole.ADMIN || user.role == UserRole.SUPER_ADMIN

/-- `_can_create_report` from `walk_reports.py`: admins always; else the
event creator; else an approved participant through the linked owner. -/
def _can_create_report (db : DB) (user : User) (event_id : String) : Bool :=
  if isElevated user then true
  else if (match db.findWalkEvent event_id with
           | some event => event.created_by_user_id == user.id
           | none => false) then true
  else match user.ownerOf db with
    | some owner =>
        (db.walk_participants.find? (fun p =>
          p.event_id == event_id && p.owner_id == owner.id &&
          p.status == ParticipantStatus.APPROVED)).isSome
    | none => false

/-- `_can_view_report` from `walk_reports.py`: public reports to anyone;
admins see everything; the author sees their own. -/
def _can_view_report (user : User) (report : WalkReport) : Bool :=
  if report.status == ReportStatus.PUBLIC then true
  else if isElevated user then true
  else report.author_user_id == user.id

/-- The two error kinds a handler can raise (`404` / `403`). -/
inductive ApiError where
  | NotFound
  | Forbidden
deriving DecidableEq

/-- Request body of `POST /walk-reports` (`WalkReportCreate`); the pydantic
default of `status` (`DRAFT`) is applied before the handler runs. -/
structure WalkReportCreate where
  walk_event_id : String
  title : String
  content : Option String := none
  photos_json : Option String := none
  weather : Option String := none
  status : ReportStatus := ReportStatus.DRAFT
deriving DecidableEq

/-- Request body of `PATCH /walk-reports/{id}` (`WalkReportUpdate`);
`none` means the field was not supplied (`exclude_unset`). -/
structure WalkReportUpdate where
  title : Option String := none
  content : Option String := none
  photos_json : Option String := none
  weather : Option String := none
  status : Option ReportStatus := none
deriving DecidableEq

/-- The dynamic `setattr` loop of `update_walk_report`: each supplied field
overwrites the stored one; `updated_at` is refreshed by the ORM. -/
def applyUpdate (report : WalkReport) (upd : WalkReportUpdate) (now : Nat) : WalkReport :=
  { report with
    title := upd.title.getD report.title
    content := match upd.content with
      | some c => some c
      | none => report.content
    photos_json := match upd.photos_json with
      | some p => some p
      | none => report.photos_json
    weather := match upd.weather with
      | some w => some w
      | none => report.weather
    status := upd.status.getD report.status
    updated_at := now }

/-- `POST /walk-reports`: 404 if the event is missing, 403 if
`_can_create_report` denies, else the inserted row.  The generated uuid and
clock are passed in as `newId` / `now`. -/
def create_walk_report (db : DB) (user : User) (c : WalkReportCreate)
    (newId : String) (now : Nat) : Except ApiError WalkReport :=
  match db.findWalkEvent c.walk_event_id with
  | none => .error ApiError.NotFound
  | some _ =>
    if _can_create_report db user c.walk_event_id then
      .ok { id := newId, walk_event_id := c.walk_event_id,
            author_user_id := user.id, title := c.title, content := c.content,
            photos_json := c.photos_json, weather := c.weather,
            status := c.status, created_at := now, updated_at := now }
    else .error ApiError.Forbidden

/-- `GET /walk-reports/{id}`: 404 if missing, 403 unless `_can_view_report`. -/
def get_walk_report (db : DB) (user : User) (report_id : String) :
    Except ApiError WalkReport :=
  match db.findWalkReport report_id with
  | none => .error ApiError.NotFound
  | some report =>
    if _can_view_report user report then .ok report
    else .error ApiError.Forbidden

/-- `PATCH /walk-reports/{id}`: 404 if missing, 403 unless the caller is the
author (`report.author_user_id != current_user.id` raises 403 for every role). -/
def update_walk_report (db : DB) (user : User) (report_id : String)
    (upd : WalkReportUpdate) (now : Nat) : Except ApiError WalkReport :=
  match db.findWalkReport report_id with
  | none => .error ApiError.NotFound
  | some report =>
    if report.author_user_id == user.id then .ok (applyUpdate report upd now)
    else .error ApiError.Forbidden

/-- `DELETE /walk-reports/{id}`: 404 if missing, 403 unless the caller is the
author or holds an elevated role; on success the row is removed. -/
def delete_walk_report (db : DB) (user : User) (report_id : String) :
    Except ApiError DB :=
  match db.findWalkReport report_id with
  | none => .error ApiError.NotFound
  | some report =>
    if report.author_user_id != user.id && !(isElevated user) then
      .error ApiError.Forbidden
    else
      .ok { db with walk_reports := db.walk_reports.eraseP (fun r => r.id == report_id) }

/-- The page object `{items, total, page, size, pages}` returned by the walk
report and health record list handlers. -/
structure ListPage (α : Type) where
  items : List α
  total : Nat
  page : Nat
  size : Nat
  pages : Nat
deriving DecidableEq

/-- `math.ceil(total / size) if total > 0 else 1` (for `size > 0` the Nat
expression `(total + size - 1) / size` is exactly the ceiling). -/
def ceilPages (total size : Nat) : Nat :=
  if total > 0 then (total + size - 1) / size else 1

/-- The shared tail of the list handlers: count, `offset = (page-1)*size`,
`offset/limit` window, page count. -/
def mkListPage {α : Type} (l : List α) (page size : Nat) : ListPage α :=
  { items := (l.drop ((page - 1) * size)).take size
    total := l.length
    page := page
    size := size
    pages := ceilPages l.length size }

/-- The filter stage of `list_walk_reports`: optional event filter, then the
role-dependent status/visibility filter, exactly as composed in the handler. -/
def filteredWalkReports (db : DB) (user : User) (walk_event_id : Option String)
    (status_filter : Option ReportStatus) : List WalkReport :=
  let q := db.walk_reports
  let q := match walk_event_id with
    | some eid => q.filter (fun r => r.walk_event_id == eid)
    | none => q
  if isElevated user then
    match status_filter with
    | some s => q.filter (fun r => r.status == s)
    | none => q
  else
    match status_filter with
    | some s => q.filter (fun r =>
        (r.status == ReportStatus.PUBLIC || r.author_user_id == user.id) &&
        r.status == s)
    | none => q.filter (fun r =>
        r.status == ReportStatus.PUBLIC || r.author_user_id == user.id)

/-- `ORDER BY created_at DESC` constrains consecutive rows only by
`created_at`; ties are left to the store. -/
def sortedByCreatedAtDesc (l : List WalkReport) : Prop :=
  l.Pairwise (fun a b => b.created_at ≤ a.created_at)

/-- Valid outputs of `GET /walk-reports`: some ordering of the filtered rows
that respects `ORDER BY created_at DESC`, paged by `mkListPage`. -/
def walkListingValid (db : DB) (user : User) (walk_event_id : Option String)
    (status_filter : Option ReportStatus) (page size : Nat)
    (out : ListPage WalkReport) : Prop :=
  ∃ l, l.Perm (filteredWalkReports db user walk_event_id status_filter) ∧
    sortedByCreatedAtDesc l ∧ out = mkListPage l page size

/-- `get_user_dogs` from `health_records.py`: all dogs for elevated roles,
else the dogs of the caller's linked owner, else the empty list. -/
def get_user_dogs (db : DB) (user : User) : List Dog :=
  if isElevated user then db.dogs
  else match db.owners.find? (fun o => o.user_id == user.id) with
    | none => []
    | some owner => db.dogs.filter (fun d => d.owner_id == owner.id)

/-- `check_dog_access` from `health_records.py`. -/
def check_dog_access (db : DB) (user : User) (dog_id : String) : Bool :=
  (get_user_dogs db user).any (fun d => d.id == dog_id)

/-- Request body of `POST /health-records` (claim-relevant fields). -/
structure HealthRecordCreate where
  dog_id : String
  record_date : Nat
deriving DecidableEq

/-- `POST /health-records`: the admin-role check runs FIRST (line 41), the dog
existence check only afterwards (line 48) — mirrored in this order. -/
def create_health_record (db : DB) (user : User) (c : HealthRecordCreate)
    (newId : String) (now : Nat) : Except ApiError HealthRecord :=
  if !(isElevated user) then .error ApiError.Forbidden
  else match db.dogs.find? (fun d => d.id == c.dog_id) with
    | none => .error ApiError.NotFound
    | some _ =>
      .ok { id := newId, dog_id := c.dog_id, record_date := c.record_date,
            author_user_id := user.id, created_at := now }

/-- The filter stage of `list_health_records` (reached only when the handler
did not return early): ownership scoping for `USER`, then the explicit
dog/date filters. -/
def filteredHealthRecords (db : DB) (user : User) (dog_id : Option String)
    (date_from date_to : Option Nat) : List HealthRecord :=
  let q := db.health_records
  let q := if user.role == UserRole.USER then
      let user_dogs := get_user_dogs db user
      q.filter (fun r => user_dogs.any (fun d => d.id == r.dog_id))
    else q
  let q := match dog_id with
    | some d => q.filter (fun r => r.dog_id == d)
    | none => q
  let q := match date_from with
    | some f => q.filter (fun r => decide (f ≤ r.record_date))
    | none => q
  match date_to with
  | some t => q.filter (fun r => decide (r.record_date ≤ t))
  | none => q

/-- The sort key relation of `ORDER BY record_date DESC, id DESC`:
row `a` may precede row `b` iff `b`'s (date, id) key is lexicographically
at most `a`'s. -/
def healthKeyGE (a b : Nat × String) : Prop :=
  b.1 < a.1 ∨ (b.1 = a.1 ∧ b.2 ≤ a.2)

instance : DecidableRel healthKeyGE := fun a b => by
  unfold healthKeyGE; infer_instance

/-- A list respecting `ORDER BY record_date DESC, HealthRecord.id DESC`. -/
def sortedHealthDesc (l : List HealthRecord) : Prop :=
  l.Pairwise (fun a b => healthKeyGE (a.record_date, a.id) (b.record_date, b.id))

/-- `current_user.role == UserRole.USER and not check_dog_access(...)` for a
supplied `dog_id` — the 403 branch of `list_health_records`. -/
def dogAccessDenied (db : DB) (user : User) (dog_id : Option String) : Bool :=
  match dog_id with
  | some d => user.role == UserRole.USER && !(check_dog_access db user d)
  | none => false

/-- Valid outcomes of `GET /health-records`, following the handler's control
flow: early empty page for a `USER` with no dogs, then the per-dog 403,
then the filtered, ordered, paged query. -/
def healthListingValid (db : DB) (user : User) (dog_id : Option String)
    (date_from date_to : Option Nat) (page size : Nat)
    (out : Except ApiError (ListPage HealthRecord)) : Prop :=
  if user.role = UserRole.USER ∧ get_user_dogs db user = [] then
    out = .ok { items := [], total := 0, page := page, size := size, pages := 1 }
  else if dogAccessDenied db user dog_id then
    out = .error ApiError.Forbidden
  else
    ∃ l, l.Perm (filteredHealthRecords db user dog_id date_from date_to) ∧
      sortedHealthDesc l ∧ out = .ok (mkListPage l page size)

/-- `GET /health-records/{id}`: 404 if missing; 403 for a `USER` without
access to the record's dog; elevated roles skip the access check. -/
def get_health_record (db : DB) (user : User) (record_id : String) :
    Except ApiError HealthRecord :=
  match db.health_records.find? (fun r => r.id == record_id) with
  | none => .error ApiError.NotFound
  | some record =>
    if user.role == UserRole.USER && !(check_dog_access db user record.dog_id) then
      .error ApiError.Forbidden
    else .ok record

/-- The page object `{items, total, page, per_page, pages}` of
`app/schemas/common.py` used by the certificate service. -/
structure CertPage where
  items : List Certificate
  total : Nat
  page : Nat
  per_page : Nat
  pages : Nat
deriving DecidableEq

/-- `ilike(f"%{issuer}%")`: case-insensitive substring containment. -/
def ilikeContains (pat s : String) : Bool :=
  let p := pat.toList.map Char.toLower
  let t := s.toList.map Char.toLower
  (List.range (t.length + 1)).any (fun i => p.isPrefixOf (t.drop i))

/-- The filter chain of `certificate_service.get_certificates`: the five
optional filters, composed in source order.  No ownership filter appears. -/
def filteredCertificates (db : DB) (dog_id : Option String)
    (cert_type : Option CertificateType) (issuer : Option String)
    (expires_after expires_before : Option Nat) : List Certificate :=
  let q : List Certificate := db.certificates
  let q : List Certificate := match dog_id with
    | some d => q.filter (fun c => c.dog_id == d)
    | none => q
  let q : List Certificate := match cert_type with
    | some t => q.filter (fun c => c.cert_type == t)
    | none => q
  let q : List Certificate := match issuer with
    | some s => q.filter (fun c => ilikeContains s c.issuer)
    | none => q
  let q : List Certificate := match expires_after with
    | some a => q.filter (fun c => match c.expires_on with
        | some e => decide (a ≤ e)
        | none => false)
    | none => q
  match expires_before with
  | some b => q.filter (fun c => match c.expires_on with
      | some e => decide (e ≤ b)
      | none => false)
  | none => q

/-- `get_certificates` from `certificate_service.py`: count, `offset/limit`
window, and the service's own page arithmetic
`pages = (total + limit - 1) // limit if limit > 0 else 1`.  The query has no
`ORDER BY`; the embedding keeps store order.  There is no principal parameter:
the service never receives the caller. -/
def get_certificates (db : DB) (skip limit : Nat) (dog_id : Option String)
    (cert_type : Option CertificateType) (issuer : Option String)
    (expires_after expires_before : Option Nat) : CertPage :=
  let q := filteredCertificates db dog_id cert_type issuer expires_after expires_before
  let total := q.length
  { items := (q.drop skip).take limit
    total := total
    page := if limit > 0 then skip / limit + 1 else 1
    per_page := limit
    pages := if limit > 0 then (total + limit - 1) / limit else 1 }

/-- `GET /certificates/{id}` (router + `certificate_service.get_certificate`):
404 if missing, else the row.  The authenticated `user` is never consulted —
the handler performs no ownership or role check on reads. -/
def get_certificate_endpoint (db : DB) (user : User) (certificate_id : String) :
    Except ApiError Certificate :=
  match db.certificates.find? (fun c => c.id == certificate_id) with
  | none => .error ApiError.NotFound
  | some c => .ok c

instance (l : List WalkReport) : Decidable (sortedByCreatedAtDesc l) := by
  unfold sortedByCreatedAtDesc; infer_instance

instance (l : List HealthRecord) : Decidable (sortedHealthDesc l) := by
  unfold sortedHealthDesc; infer_instance

/-! Concrete fixtures used by witnesses and counterexamples. -/

/-- Regular user `u1`, linked to owner `o1`, who owns dog `d1`. -/
def uAlice : User := { id := "u1", role := UserRole.USER }

/-- Regular user `u2`, linked to owner `o2`, who owns dog `d2`. -/
def uBob : User := { id := "u2", role := UserRole.USER }

/-- Regular user `u3` with no linked owner. -/
def uCarol : User := { id := "u3", role := UserRole.USER }

/-- Administrator `adm`. -/
def uAdmin : User := { id := "adm", role := UserRole.ADMIN }

/-- A private walk report on event `e1`, authored by `u1`. -/
def rep1 : WalkReport :=
  { id := "r1", walk_event_id := "e1", author_user_id := "u1", title := "t1",
    content := none, photos_json := none, weather := none,
    status := ReportStatus.PRIVATE, created_at := 10, updated_at := 10 }

/-- A certificate for dog `d2` (owned by `o2`, i.e. user `u2`). -/
def cert2 : Certificate :=
  { id := "c2", dog_id := "d2", cert_type := CertificateType.RABIES,
    cert_number := none, issuer := "vet", issued_on := 1, expires_on := none,
    file_url := none, notes := none, created_at := 1 }

/-- Health record for `u1`'s dog `d1`, dated 5. -/
def hr1 : HealthRecord :=
  { id := "h1", dog_id := "d1", record_date := 5, author_user_id := "adm",
    created_at := 5 }

/-- Health record for `u2`'s dog `d2`, dated 4. -/
def hr2 : HealthRecord :=
  { id := "h2", dog_id := "d2", record_date := 4, author_user_id := "adm",
    created_at := 6 }

/-- A small store: two owners with one dog each, one walk event created by
`u1` with an approved participation by `o1`, one private report by `u1`,
two health records and one certificate. -/
def db1 : DB :=
  { owners := [{ id := "o1", user_id := "u1" }, { id := "o2", user_id := "u2" }]
    dogs := [{ id := "d1", owner_id := "o1" }, { id := "d2", owner_id := "o2" }]
    walk_events := [{ id := "e1", created_by_user_id := "u1" }]
    walk_participants := [{ event_id := "e1", owner_id := "o1",
                            status := ParticipantStatus.APPROVED }]
    walk_reports := [rep1]
    health_records := [hr1, hr2]
    certificates := [cert2] }

/-- The store with every table empty. -/
def dbEmpty : DB :=
  { owners := [], dogs := [], walk_events := [], walk_participants := [],
    walk_reports := [], health_records := [], certificates := [] }

/-! Claims. -/

/-- C1: for every principal of any role and every existing walk report, the
update operation succeeds iff the report's `author_user_id` equals the
principal's id; any non-author — elevated roles included — receives 403. -/
theorem update_walk_report_author_only (db : DB) (user : User)
    (report_id : String) (upd : WalkReportUpdate) (now : Nat)
    (report : WalkReport) (hfind : db.findWalkReport report_id = some report) :
    ((∃ r', update_walk_report db user report_id upd now = .ok r') ↔
      report.author_user_id = user.id) ∧
    (report.author_user_id ≠ user.id →
      update_walk_report db user report_id upd now = .error ApiError.Forbidden) := by
  unfold update_walk_report
  rw [hfind]
  by_cases h : report.author_user_id = user.id <;> simp [h]

/-- Witness for C1: the author `u1` may update their own report `r1`. -/
theorem update_walk_report_author_only_witness :
    ((∃ r', update_walk_report db1 uAlice "r1" {} 99 = .ok r') ↔
      rep1.author_user_id = uAlice.id) ∧
    (rep1.author_user_id ≠ uAlice.id →
      update_walk_report db1 uAlice "r1" {} 99 = .error ApiError.Forbidden) :=
  update_walk_report_author_only db1 uAlice "r1" {} 99 rep1 (by decide)

/-- C2: for every principal and every existing walk report, deletion succeeds
iff the principal authored the report or holds role ADMIN or SUPER_ADMIN; a
non-author elevated principal can delete but not update the same report. -/
theorem delete_walk_report_author_or_admin (db : DB) (user : User)
    (report_id : String) (upd : WalkReportUpdate) (now : Nat)
    (report : WalkReport) (hfind : db.findWalkReport report_id = some report) :
    ((∃ db', delete_walk_report db user report_id = .ok db') ↔
      (report.author_user_id = user.id ∨ user.role = UserRole.ADMIN ∨
       user.role = UserRole.SUPER_ADMIN)) ∧
    (report.author_user_id ≠ user.id →
      (user.role = UserRole.ADMIN ∨ user.role = UserRole.SUPER_ADMIN) →
      (∃ db', delete_walk_report db user report_id = .ok db') ∧
      update_walk_report db user report_id upd now = .error ApiError.Forbidden) := by
  unfold delete_walk_report update_walk_report isElevated
  rw [hfind]
  by_cases h : report.author_user_id = user.id <;>
    cases hr : user.role <;> simp [h, hr]

/-- Witness for C2: the admin `adm` did not author `r1`, yet may delete it —
and, at the same input, may not update it. -/
theorem delete_walk_report_author_or_admin_witness :
    ((∃ db', delete_walk_report db1 uAdmin "r1" = .ok db') ↔
      (rep1.author_user_id = uAdmin.id ∨ uAdmin.role = UserRole.ADMIN ∨
       uAdmin.role = UserRole.SUPER_ADMIN)) ∧
    (rep1.author_user_id ≠ uAdmin.id →
      (uAdmin.role = UserRole.ADMIN ∨ uAdmin.role = UserRole.SUPER_ADMIN) →
      (∃ db', delete_walk_report db1 uAdmin "r1" = .ok db') ∧
      update_walk_report db1 uAdmin "r1" {} 99 = .error ApiError.Forbidden) :=
  delete_walk_report_author_or_admin db1 uAdmin "r1" {} 99 rep1 (by decide)

/-- C3: viewing a walk report is permitted iff the report is PUBLIC, or the
role is elevated, or the principal is the author; for a plain USER the 2×3
authorship × status matrix collapses to `PUBLIC ∨ author`. -/
theorem can_view_report_iff (user : User) (report : WalkReport) :
    (_can_view_report user report = true ↔
      (report.status = ReportStatus.PUBLIC ∨ user.role = UserRole.ADMIN ∨
       user.role = UserRole.SUPER_ADMIN ∨ report.author_user_id = user.id)) ∧
    (user.role = UserRole.USER →
      (_can_view_report user report = true ↔
        (report.status = ReportStatus.PUBLIC ∨ report.author_user_id = user.id))) := by
  unfold _can_view_report isElevated
  cases hs : report.status <;> cases hr : user.role <;>
    by_cases h : report.author_user_id = user.id <;> simp [h, hr, hs]

/-- Witness for C3 at a concrete input: non-author `u2` and the private
report `r1`. -/
theorem can_view_report_iff_witness :
    (_can_view_report uBob rep1 = true ↔
      (rep1.status = ReportStatus.PUBLIC ∨ uBob.role = UserRole.ADMIN ∨
       uBob.role = UserRole.SUPER_ADMIN ∨ rep1.author_user_id = uBob.id)) ∧
    (uBob.role = UserRole.USER →
      (_can_view_report uBob rep1 = true ↔
        (rep1.status = ReportStatus.PUBLIC ∨ rep1.author_user_id = uBob.id))) :=
  can_view_report_iff uBob rep1

/-- C4: for an existing walk event, report creation is permitted iff the role
is elevated, or the principal created the event, or the principal's linked
owner has an APPROVED participation row for the event. -/
theorem can_create_report_iff (db : DB) (user : User) (event_id : String)
    (event : WalkEvent) (hev : db.findWalkEvent event_id = some event) :
    _can_create_report db user event_id = true ↔
      (user.role = UserRole.ADMIN ∨ user.role = UserRole.SUPER_ADMIN ∨
       event.created_by_user_id = user.id ∨
       ∃ o, user.ownerOf db = some o ∧ ∃ p ∈ db.walk_participants,
         p.event_id = event_id ∧ p.owner_id = o.id ∧
         p.status = ParticipantStatus.APPROVED) := by
  unfold _can_create_report isElevated
  rw [hev]
  cases hr : user.role <;>
    by_cases hc : event.created_by_user_id = user.id <;>
      cases ho : user.ownerOf db <;>
        simp [hr, hc, ho, List.find?_isSome, and_assoc]

/-- Witness for C4: `u2` neither created `e1` nor participates, so creation
is denied; the iff is instantiated at that input. -/
theorem can_create_report_iff_witness :
    _can_create_report db1 uBob "e1" = true ↔
      (uBob.role = UserRole.ADMIN ∨ uBob.role = UserRole.SUPER_ADMIN ∨
       WalkEvent.created_by_user_id { id := "e1", created_by_user_id := "u1" } = uBob.id ∨
       ∃ o, uBob.ownerOf db1 = some o ∧ ∃ p ∈ db1.walk_participants,
         p.event_id = "e1" ∧ p.owner_id = o.id ∧
         p.status = ParticipantStatus.APPROVED) :=
  can_create_report_iff db1 uBob "e1"
    { id := "e1", created_by_user_id := "u1" } (by decide)

/-- C5: for a non-elevated principal with an explicit status filter, the list
predicate is the visibility disjunction ANDed with the requested status; with
`status=PRIVATE` only the caller's own private reports survive. -/
theorem list_status_filter_intersected (db : DB) (user : User)
    (walk_event_id : Option String) (σ : ReportStatus)
    (hrole : ¬(user.role = UserRole.ADMIN ∨ user.role = UserRole.SUPER_ADMIN)) :
    (∀ r, r ∈ filteredWalkReports db user walk_event_id (some σ) ↔
      (r ∈ db.walk_reports ∧
       (∀ eid, walk_event_id = some eid → r.walk_event_id = eid) ∧
       (r.status = ReportStatus.PUBLIC ∨ r.author_user_id = user.id) ∧
       r.status = σ)) ∧
    (σ = ReportStatus.PRIVATE →
      ∀ r, r ∈ filteredWalkReports db user walk_event_id (some σ) →
        r.author_user_id = user.id ∧ r.status = ReportStatus.PRIVATE) := by
  have helev : isElevated user = false := by
    unfold isElevated
    cases hr : user.role <;> simp_all
  have hmain : ∀ r, r ∈ filteredWalkReports db user walk_event_id (some σ) ↔
      (r ∈ db.walk_reports ∧
       (∀ eid, walk_event_id = some eid → r.walk_event_id = eid) ∧
       (r.status = ReportStatus.PUBLIC ∨ r.author_user_id = user.id) ∧
       r.status = σ) := by
    intro r
    unfold filteredWalkReports
    rw [helev]
    cases hev : walk_event_id <;>
      simp [List.mem_filter, and_assoc] <;> tauto
  refine ⟨hmain, ?_⟩
  rintro rfl r hr
  rcases (hmain r).mp hr with ⟨-, -, hvis, hst⟩
  rcases hvis with hpub | hauth
  · rw [hst] at hpub; exact absurd hpub (by decide)
  · exact ⟨hauth, hst⟩

/-- Witness for C5: `u2` (plain USER) listing with `status=PRIVATE` over the
store `db1`. -/
theorem list_status_filter_intersected_witness :
    (∀ r, r ∈ filteredWalkReports db1 uBob none (some ReportStatus.PRIVATE) ↔
      (r ∈ db1.walk_reports ∧
       (∀ eid, (none : Option String) = some eid → r.walk_event_id = eid) ∧
       (r.status = ReportStatus.PUBLIC ∨ r.author_user_id = uBob.id) ∧
       r.status = ReportStatus.PRIVATE)) ∧
    (ReportStatus.PRIVATE = ReportStatus.PRIVATE →
      ∀ r, r ∈ filteredWalkReports db1 uBob none (some ReportStatus.PRIVATE) →
        r.author_user_id = uBob.id ∧ r.status = ReportStatus.PRIVATE) :=
  list_status_filter_intersected db1 uBob none ReportStatus.PRIVATE (by decide)

/-- For a positive total, `ceilPages` is the exact ceiling of `total / size`:
`pages * size` falls in the window `[total, total + size)`. -/
theorem ceilPages_sandwich (t s : Nat) (hs : 0 < s) (ht : 0 < t) :
    t ≤ ceilPages t s * s ∧ ceilPages t s * s < t + s := by
  unfold ceilPages
  rw [if_pos ht]
  have key : (t + s - 1) / s * s + (t + s - 1) % s = t + s - 1 :=
    Nat.div_add_mod' _ _
  have hmod : (t + s - 1) % s < s := Nat.mod_lt _ hs
  generalize (t + s - 1) / s * s = X at key ⊢
  generalize (t + s - 1) % s = R at key hmod
  omega

/-- C6 counterexample: the certificate lister reports `pages = 0`, not `1`,
when `total = 0` (here: empty store, `skip=0`, `limit=100`). -/
theorem certificate_pages_zero_on_empty :
    (get_certificates dbEmpty 0 100 none none none none none).total = 0 ∧
    (get_certificates dbEmpty 0 100 none none none none none).pages = 0 ∧
    (get_certificates dbEmpty 0 100 none none none none none).pages ≠ 1 := by
  decide

/-- C6 as amended: the walk report lister satisfies `pages = ceil(total/size)`
for `total > 0` (expressed by the sandwich `total ≤ pages*size < total+size`)
and `pages = 1` for `total = 0`, and a page beyond the last yields empty items
with the very same total/pages metadata; the certificate lister satisfies the
same ceiling for `total > 0` and empty items beyond range, but reports
`pages = 0` when `total = 0`. -/
theorem pagination_metadata_correct (db : DB) (user : User)
    (walk_event_id : Option String) (status_filter : Option ReportStatus)
    (page size : Nat) (out : ListPage WalkReport)
    (hsize : 0 < size)
    (hv : walkListingValid db user walk_event_id status_filter page size out) :
    out.total = (filteredWalkReports db user walk_event_id status_filter).length ∧
    (out.total = 0 → out.pages = 1) ∧
    (0 < out.total →
      out.total ≤ out.pages * size ∧ out.pages * size < out.total + size) ∧
    (out.pages < page → out.items = []) ∧
    (∀ page' out',
      walkListingValid db user walk_event_id status_filter page' size out' →
      out'.total = out.total ∧ out'.pages = out.pages) ∧
    (∀ skip limit dog_id cert_type issuer expires_after expires_before,
      0 < limit →
      ((get_certificates db skip limit dog_id cert_type issuer
          expires_after expires_before).total = 0 →
        (get_certificates db skip limit dog_id cert_type issuer
          expires_after expires_before).pages = 0) ∧
      (0 < (get_certificates db skip limit dog_id cert_type issuer
          expires_after expires_before).total →
        (get_certificates db skip limit dog_id cert_type issuer
            expires_after expires_before).total ≤
          (get_certificates db skip limit dog_id cert_type issuer
            expires_after expires_before).pages * limit ∧
        (get_certificates db skip limit dog_id cert_type issuer
            expires_after expires_before).pages * limit <
          (get_certificates db skip limit dog_id cert_type issuer
            expires_after expires_before).total + limit) ∧
      ((get_certificates db skip limit dog_id cert_type issuer
          expires_after expires_before).total ≤ skip →
        (get_certificates db skip limit dog_id cert_type issuer
          expires_after expires_before).items = [])) := by
  obtain ⟨l, hperm, hsort, hout⟩ := hv
  subst hout
  have htot : (mkListPage l page size).total = l.length := rfl
  have hpag : (mkListPage l page size).pages = ceilPages l.length size := rfl
  refine ⟨?_, ?_, ?_, ?_, ?_, ?_⟩
  · rw [htot, hperm.length_eq]
  · intro h0
    rw [htot] at h0
    rw [hpag, h0]
    rfl
  · intro hpos
    rw [htot] at hpos ⊢
    rw [hpag]
    exact ceilPages_sandwich l.length size hsize hpos
  · intro hlt
    rw [hpag] at hlt
    have hbound : l.length ≤ (page - 1) * size := by
      rcases Nat.eq_zero_or_pos l.length with h0 | hpos
      · omega
      · have hs := (ceilPages_sandwich l.length size hsize hpos).1
        have hstep : ceilPages l.length size * size ≤ (page - 1) * size :=
          Nat.mul_le_mul_right _ (by omega)
        omega
    show ((l.drop ((page - 1) * size)).take size) = []
    rw [List.drop_eq_nil_of_le hbound, List.take_nil]
  · intro page' out' hv'
    obtain ⟨l', hperm', hsort', hout'⟩ := hv'
    subst hout'
    constructor
    · show l'.length = l.length
      rw [hperm'.length_eq, hperm.length_eq]
    · show ceilPages l'.length size = ceilPages l.length size
      rw [hperm'.length_eq, hperm.length_eq]
  · intro skip limit dog_id cert_type issuer ea eb hlim
    set Q := filteredCertificates db dog_id cert_type issuer ea eb with hQ
    have ht : (get_certificates db skip limit dog_id cert_type issuer ea eb).total
        = Q.length := rfl
    have hp : (get_certificates db skip limit dog_id cert_type issuer ea eb).pages
        = if limit > 0 then (Q.length + limit - 1) / limit else 1 := rfl
    have hi : (get_certificates db skip limit dog_id cert_type issuer ea eb).items
        = (Q.drop skip).take limit := rfl
    refine ⟨?_, ?_, ?_⟩
    · intro h0
      rw [ht] at h0
      rw [hp, if_pos hlim, h0]
      exact Nat.div_eq_of_lt (by omega)
    · intro hpos
      rw [ht] at hpos ⊢
      rw [hp, if_pos hlim]
      have := ceilPages_sandwich Q.length limit hlim hpos
      unfold ceilPages at this
      rw [if_pos hpos] at this
      exact this
    · intro hle
      rw [ht] at hle
      rw [hi, List.drop_eq_nil_of_le hle, List.take_nil]

/-- Witness for the amended C6: the admin listing of `db1` (one report,
page 1, size 10). -/
theorem pagination_metadata_correct_witness :
    (mkListPage [rep1] 1 10).total =
      (filteredWalkReports db1 uAdmin none none).length ∧
    ((mkListPage [rep1] 1 10).total = 0 → (mkListPage [rep1] 1 10).pages = 1) ∧
    (0 < (mkListPage [rep1] 1 10).total →
      (mkListPage [rep1] 1 10).total ≤ (mkListPage [rep1] 1 10).pages * 10 ∧
      (mkListPage [rep1] 1 10).pages * 10 < (mkListPage [rep1] 1 10).total + 10) ∧
    ((mkListPage [rep1] 1 10).pages < 1 → (mkListPage [rep1] 1 10).items = []) ∧
    (∀ page' out', walkListingValid db1 uAdmin none none page' 10 out' →
      out'.total = (mkListPage [rep1] 1 10).total ∧
      out'.pages = (mkListPage [rep1] 1 10).pages) ∧
    (∀ skip limit dog_id cert_type issuer expires_after expires_before,
      0 < limit →
      ((get_certificates db1 skip limit dog_id cert_type issuer
          expires_after expires_before).total = 0 →
        (get_certificates db1 skip limit dog_id cert_type issuer
          expires_after expires_before).pages = 0) ∧
      (0 < (get_certificates db1 skip limit dog_id cert_type issuer
          expires_after expires_before).total →
        (get_certificates db1 skip limit dog_id cert_type issuer
            expires_after expires_before).total ≤
          (get_certificates db1 skip limit dog_id cert_type issuer
            expires_after expires_before).pages * limit ∧
        (get_certificates db1 skip limit dog_id cert_type issuer
            expires_after expires_before).pages * limit <
          (get_certificates db1 skip limit dog_id cert_type issuer
            expires_after expires_before).total + limit) ∧
      ((get_certificates db1 skip limit dog_id cert_type issuer
          expires_after expires_before).total ≤ skip →
        (get_certificates db1 skip limit dog_id cert_type issuer
          expires_after expires_before).items = [])) :=
  pagination_metadata_correct db1 uAdmin none none 1 10 (mkListPage [rep1] 1 10)
    (by decide) ⟨[rep1], by decide, by decide, rfl⟩

/-- A second public report on `e1`, sharing `created_at = 10` with `repA`. -/
def repA : WalkReport :=
  { id := "ra", walk_event_id := "e1", author_user_id := "u1", title := "a",
    content := none, photos_json := none, weather := none,
    status := ReportStatus.PUBLIC, created_at := 10, updated_at := 10 }

/-- Like `repA` but with id `rb`: identical `created_at`, distinct row. -/
def repB : WalkReport :=
  { id := "rb", walk_event_id := "e1", author_user_id := "u1", title := "b",
    content := none, photos_json := none, weather := none,
    status := ReportStatus.PUBLIC, created_at := 10, updated_at := 10 }

/-- Store with two walk reports whose `created_at` collide. -/
def db7 : DB :=
  { owners := [], dogs := [],
    walk_events := [{ id := "e1", created_by_user_id := "u1" }],
    walk_participants := [], walk_reports := [repA, repB],
    health_records := [], certificates := [] }

/-- C7 counterexample: the walk report lister orders only by `created_at`
descending, so two valid outputs of the very same call return the two tied
rows in different id orders — the id sequence is not determined. -/
theorem walk_listing_order_underdetermined :
    walkListingValid db7 uAdmin none none 1 10 (mkListPage [repA, repB] 1 10) ∧
    walkListingValid db7 uAdmin none none 1 10 (mkListPage [repB, repA] 1 10) ∧
    (mkListPage [repA, repB] 1 10).items.map WalkReport.id ≠
      (mkListPage [repB, repA] 1 10).items.map WalkReport.id :=
  ⟨⟨[repA, repB], by decide, by decide, rfl⟩,
   ⟨[repB, repA], by decide, by decide, rfl⟩,
   by decide⟩

instance : IsAntisymm (Nat × String) healthKeyGE where
  antisymm := by
    rintro ⟨a1, a2⟩ ⟨b1, b2⟩ hab hba
    unfold healthKeyGE at hab hba
    simp only at hab hba
    rcases hab with h | ⟨h1, h2⟩ <;> rcases hba with h' | ⟨h1', h2'⟩
    · exact absurd (h.trans h') (lt_irrefl _)
    · omega
    · omega
    · exact Prod.ext (by omega) (le_antisymm h2' h2)

/-- C7 as amended: the health record lister's ordering
(`record_date DESC, id DESC`) does carry the unique id tiebreaker, so any two
valid orderings of the same filtered rows agree on the id sequence; the walk
report listers order by `created_at` alone and admit distinct id sequences on
ties (see the counterexample). -/
theorem health_listing_order_deterministic (db : DB) (user : User)
    (dog_id : Option String) (date_from date_to : Option Nat)
    (l₁ l₂ : List HealthRecord)
    (h₁ : l₁.Perm (filteredHealthRecords db user dog_id date_from date_to))
    (h₂ : l₂.Perm (filteredHealthRecords db user dog_id date_from date_to))
    (s₁ : sortedHealthDesc l₁) (s₂ : sortedHealthDesc l₂) :
    l₁.map HealthRecord.id = l₂.map HealthRecord.id := by
  have hp : (l₁.map (fun r => (r.record_date, r.id))).Perm
      (l₂.map (fun r => (r.record_date, r.id))) :=
    (h₁.trans h₂.symm).map _
  have hs₁ : (l₁.map (fun r => (r.record_date, r.id))).Pairwise healthKeyGE :=
    List.pairwise_map.mpr s₁
  have hs₂ : (l₂.map (fun r => (r.record_date, r.id))).Pairwise healthKeyGE :=
    List.pairwise_map.mpr s₂
  have hkeys := List.eq_of_perm_of_sorted hp hs₁ hs₂
  have e₁ : l₁.map HealthRecord.id =
      (l₁.map (fun r => (r.record_date, r.id))).map Prod.snd := by
    rw [List.map_map]; rfl
  have e₂ : l₂.map HealthRecord.id =
      (l₂.map (fun r => (r.record_date, r.id))).map Prod.snd := by
    rw [List.map_map]; rfl
  rw [e₁, e₂, hkeys]

/-- Witness for the amended C7: the admin health listing of `db1`, whose
unique valid order is `[hr1, hr2]`. -/
theorem health_listing_order_deterministic_witness :
    ([hr1, hr2].map HealthRecord.id = [hr1, hr2].map HealthRecord.id) :=
  health_listing_order_deterministic db1 uAdmin none none none
    [hr1, hr2] [hr1, hr2] (by decide) (by decide) (by decide) (by decide)

/-- C8 counterexample: in `create_health_record` the admin-role check runs
before the dog existence check, so a plain USER targeting a dog that does not
exist receives 403 (PermissionDenied), not 404 (NotFound). -/
theorem create_health_record_forbidden_before_notfound :
    dbEmpty.dogs.find? (fun d => d.id == "dX") = none ∧
    create_health_record dbEmpty uBob { dog_id := "dX", record_date := 3 } "h9" 7
      = .error ApiError.Forbidden ∧
    create_health_record dbEmpty uBob { dog_id := "dX", record_date := 3 } "h9" 7
      ≠ .error ApiError.NotFound := by
  refine ⟨rfl, rfl, ?_⟩
  intro h
  exact absurd (Except.error.inj h) (by decide)

/-- C8 as amended: every walk report operation surfaces NotFound for a missing
target before any permission logic runs, for every principal; but
`create_health_record` evaluates the admin-role authorization first and
returns Forbidden to a non-elevated principal regardless of dog existence. -/
theorem existence_check_order (db : DB) (user : User) (report_id : String)
    (upd : WalkReportUpdate) (now : Nat) (c : WalkReportCreate) (newId : String)
    (hc : HealthRecordCreate) (hid : String)
    (h1 : db.findWalkReport report_id = none)
    (h2 : db.findWalkEvent c.walk_event_id = none)
    (h3 : ¬(user.role = UserRole.ADMIN ∨ user.role = UserRole.SUPER_ADMIN)) :
    get_walk_report db user report_id = .error ApiError.NotFound ∧
    update_walk_report db user report_id upd now = .error ApiError.NotFound ∧
    delete_walk_report db user report_id = .error ApiError.NotFound ∧
    create_walk_report db user c newId now = .error ApiError.NotFound ∧
    create_health_record db user hc hid now = .error ApiError.Forbidden := by
  have helev : isElevated user = false := by
    unfold isElevated
    cases hr : user.role <;> simp_all
  unfold get_walk_report update_walk_report delete_walk_report
    create_walk_report create_health_record
  rw [h1, h2, helev]
  simp

/-- Witness for the amended C8: empty store, plain USER `u2`. -/
theorem existence_check_order_witness :
    get_walk_report dbEmpty uBob "r9" = .error ApiError.NotFound ∧
    update_walk_report dbEmpty uBob "r9" {} 7 = .error ApiError.NotFound ∧
    delete_walk_report dbEmpty uBob "r9" = .error ApiError.NotFound ∧
    create_walk_report dbEmpty uBob { walk_event_id := "e9", title := "t" } "r9" 7
      = .error ApiError.NotFound ∧
    create_health_record dbEmpty uBob { dog_id := "d9", record_date := 3 } "h9" 7
      = .error ApiError.Forbidden :=
  existence_check_order dbEmpty uBob "r9" {} 7
    { walk_event_id := "e9", title := "t" } "r9"
    { dog_id := "d9", record_date := 3 } "h9" (by decide) (by decide) (by decide)

/-- C9: a USER with no linked Owner resolves to the empty dog scope, and
every health record listing under that principal yields
`{items: [], total: 0, pages: 1}` whatever the filters — including the 403
branch and the filtered query, which are never reached. -/
theorem empty_scope_empty_page (db : DB) (user : User)
    (hrole : user.role = UserRole.USER)
    (hNoOwner : db.owners.find? (fun o => o.user_id == user.id) = none) :
    get_user_dogs db user = [] ∧
    ∀ dog_id date_from date_to page size out,
      healthListingValid db user dog_id date_from date_to page size out →
      out = .ok { items := [], total := 0, page := page, size := size, pages := 1 } := by
  have helev : isElevated user = false := by
    unfold isElevated
    rw [hrole]
    rfl
  have hd : get_user_dogs db user = [] := by
    unfold get_user_dogs
    rw [helev, hNoOwner]
    rfl
  refine ⟨hd, ?_⟩
  intro dog_id date_from date_to page size out hv
  unfold healthListingValid at hv
  rw [if_pos ⟨hrole, hd⟩] at hv
  exact hv

/-- Witness for C9: `u3` has no owner row in `db1`. -/
theorem empty_scope_empty_page_witness :
    get_user_dogs db1 uCarol = [] ∧
    ∀ dog_id date_from date_to page size out,
      healthListingValid db1 uCarol dog_id date_from date_to page size out →
      out = .ok { items := [], total := 0, page := page, size := size, pages := 1 } :=
  empty_scope_empty_page db1 uCarol (by decide) (by decide)

/-- C10 counterexample: `u1` owns only dog `d1`, yet reads certificate `c2`
of dog `d2` both by id and through the list — certificate reads are not
ownership-gated. -/
theorem certificate_read_ignores_ownership :
    check_dog_access db1 uAlice "d2" = false ∧
    get_certificate_endpoint db1 uAlice "c2" = .ok cert2 ∧
    cert2 ∈ (get_certificates db1 0 100 none none none none none).items := by
  refine ⟨by decide, rfl, by decide⟩

/-- C10 as amended: certificate reads check only existence — any principal,
of any role and any ownership, obtains any stored certificate by id, and the
unfiltered list exposes the whole table windowed by `skip`/`limit`. -/
theorem certificate_read_any_principal (db : DB) (user : User)
    (certificate_id : String) (c : Certificate)
    (hfind : db.certificates.find? (fun x => x.id == certificate_id) = some c) :
    get_certificate_endpoint db user certificate_id = .ok c ∧
    ∀ skip limit, (get_certificates db skip limit none none none none none).items
      = (db.certificates.drop skip).take limit := by
  constructor
  · unfold get_certificate_endpoint
    rw [hfind]
  · intro skip limit
    rfl

/-- Witness for the amended C10: `u2` reads `c2` in `db1`. -/
theorem certificate_read_any_principal_witness :
    get_certificate_endpoint db1 uBob "c2" = .ok cert2 ∧
    ∀ skip limit, (get_certificates db1 skip limit none none none none none).items
      = (db1.certificates.drop skip).take limit :=
  certificate_read_any_principal db1 uBob "c2" cert2 (by decide)

end Baritech
